import Mathlib

/-!
Verification development for `cli_async`: a record-processing pipeline with a
progress/interrupt aggregator and a final report.

The embedding models the source files shallowly:

* `src/main.rs` — the data model (`PropertyRecord`, `PropertyInfoResult`), the
  stage functions (`looped::t05`–`t10`, of which only `t06` and `t07` have
  observable data behaviour; the sleeps are simulated latency and carry no
  data), and the record stream `records.into_iter().enumerate().skip(skip)`.
* `src/report.rs` — the `Report` accumulator.
* `src/reporter.rs` — the `Reporter`: the merged progress-or-interrupt channel
  is modelled as a queue (`List ProgressOrInterrupt`) held in the
  `progress_or_interrupt_rx` field; `crossbeam` channel `recv` on a closed or
  exhausted channel is the empty-queue case.  The `indicatif` progress bar is
  modelled by its observable state: length, position and finished flag
  (`finish` sets the position to the length and marks the bar finished,
  `inc` advances the position).

Simulated delays (`tokio::time::sleep`) are pure no-ops in the model; terminal
styling (`crossterm` `ContentStyle`) is modelled as a begin-marker/reset-marker
wrapping of the styled text, which preserves everything the report-text claims
depend on (determinism and dependence on the `Report` fields only).
-/

namespace CliAsync

/-- `types::PropertyRecord` (src/main.rs): a newtype over the record index. -/
structure PropertyRecord where
  val : Nat
deriving DecidableEq, Repr

/-- `types::PropertyInfoResult` (src/main.rs). -/
inductive PropertyInfoResult where
  | Success
  | SuccessPartial
  | Error (record : PropertyRecord) (message : String)
deriving DecidableEq, Repr

/-- `looped::t07_retrieve_information` (src/main.rs): the deterministic fetch
outcome for index `n`.  The `delay` argument only feeds the simulated sleep and
has no data effect. -/
def t07_retrieve_information (n : Nat) (property_record : PropertyRecord)
    (delay : Nat) : PropertyInfoResult :=
  if n % 11 == 0 && n % 3 == 0 then
    PropertyInfoResult.Error property_record "Could not find record information online."
  else if n % 3 == 0 then
    PropertyInfoResult.SuccessPartial
  else
    PropertyInfoResult.Success

/-- `looped::t06_authenticate_with_server` (src/main.rs): the only observable
behaviour is whether the authentication wait is performed, which is exactly the
`first_time` flag. -/
def t06_authenticate_waits (first_time : Bool) : Bool :=
  first_time

/-- `startup::t02_stream_property_title_records` (src/main.rs):
`(0..n).map(PropertyRecord).collect()`. -/
def t02_stream_property_title_records (n : Nat) : List PropertyRecord :=
  (List.range n).map PropertyRecord.mk

/-- The `(n, record)` pairs fed through the per-record stage sequence by
`processing_future` (src/main.rs):
`records.into_iter().enumerate().skip(records_precompleted)`. -/
def processedPairs (record_count records_precompleted : Nat) :
    List (Nat × PropertyRecord) :=
  ((t02_stream_property_title_records record_count).enum).drop records_precompleted

/-- The indices on which the authenticate stage performs its wait:
`processing_future` passes `first_time = (n == 0)` to `t06` (src/main.rs
line 154). -/
def authWaitIndices (record_count records_precompleted : Nat) : List Nat :=
  ((processedPairs record_count records_precompleted).filter
    (fun p => t06_authenticate_waits (p.1 == 0))).map Prod.fst

/-- `Report` (src/report.rs). -/
structure Report where
  record_skipped_count : Nat := 0
  record_processed_successful_count : Nat := 0
  record_processed_info_missing_count : Nat := 0
  records_processed_failed : List (PropertyRecord × String) := []
deriving DecidableEq, Repr

/-- `Report::default()` (derived `Default` in src/report.rs). -/
def Report.default : Report := {}

/-- `ProgressOrInterrupt` (src/reporter.rs). -/
inductive ProgressOrInterrupt where
  | Progress (result : PropertyInfoResult)
  | Interrupt
deriving DecidableEq, Repr

/-- Observable state of the `indicatif::ProgressBar` used by the reporter. -/
structure ProgressBar where
  length : Nat
  position : Nat := 0
  finished : Bool := false
deriving DecidableEq, Repr

/-- `ProgressBar::new(len)`. -/
def ProgressBar.new (len : Nat) : ProgressBar := { length := len }

/-- `ProgressBar::set_position(pos)`. -/
def ProgressBar.set_position (pb : ProgressBar) (pos : Nat) : ProgressBar :=
  { pb with position := pos }

/-- `ProgressBar::inc(delta)`. -/
def ProgressBar.inc (pb : ProgressBar) (delta : Nat) : ProgressBar :=
  { pb with position := pb.position + delta }

/-- `ProgressBar::finish()`: moves the position to the length and marks the
bar finished. -/
def ProgressBar.finish (pb : ProgressBar) : ProgressBar :=
  { pb with position := pb.length, finished := true }

/-- `Reporter` (src/reporter.rs).  The two input channels are modelled by
`Option` presence (their payloads are produced elsewhere); the merged channel
built by `progress_bar_startup` is modelled as a queue of the events it will
deliver, in delivery order. -/
structure Reporter where
  progress_overall : ProgressBar
  progress_receiver : Option Unit
  report : Report
  interrupt_rx : Option Unit
  interrupted : Bool
  progress_or_interrupt_rx : Option (List ProgressOrInterrupt)
deriving DecidableEq, Repr

/-- `Reporter::new` (src/reporter.rs): bar sized to `record_count` with its
position pre-advanced to `record_count_processed`; report pre-populated with
the skipped count; interrupted flag `false`; merged channel not yet
installed. -/
def Reporter.new (record_count record_count_processed : Nat)
    (interrupt_rx : Option Unit) : Reporter :=
  { progress_overall :=
      (ProgressBar.new record_count).set_position record_count_processed
    progress_receiver := some ()
    report := { Report.default with record_skipped_count := record_count_processed }
    interrupt_rx := interrupt_rx
    interrupted := false
    progress_or_interrupt_rx := none }

/-- `Reporter::is_interrupted` (src/reporter.rs). -/
def Reporter.is_interrupted (r : Reporter) : Bool :=
  r.interrupted

/-- `Reporter::progress_bar_startup` (src/reporter.rs): when at least one input
channel is present, takes the input channels and installs the merged
progress-or-interrupt channel.  The `merged` argument is the sequence of events
the forwarding threads will deliver on it, in delivery order (the interleaving
of the progress stream with the one-shot interrupt is decided by scheduling, so
it is a parameter of the model). -/
def Reporter.progress_bar_startup (r : Reporter)
    (merged : List ProgressOrInterrupt) : Reporter :=
  match r.interrupt_rx with
  | some _ =>
      { r with interrupt_rx := none, progress_receiver := none
               progress_or_interrupt_rx := some merged }
  | none =>
      match r.progress_receiver with
      | some _ =>
          { r with progress_receiver := none
                   progress_or_interrupt_rx := some merged }
      | none => r

/-- Number of events still pending on the merged channel. -/
def Reporter.queueLength (r : Reporter) : Nat :=
  (r.progress_or_interrupt_rx.getD []).length

/-- `Reporter::progress_bar_sync` (src/reporter.rs): receives one event from
the merged channel.  A `Progress` event updates the report according to its
outcome and advances the bar by one.  An `Interrupt` event sets the interrupted
flag, finishes the bar, and recursively calls `progress_bar_sync` again (the
`// Empty remaining queue.` recursion in the source).  With no merged channel,
or with an exhausted channel (`recv` returns `Err`), nothing happens. -/
def Reporter.progress_bar_sync (r : Reporter) : Reporter :=
  match h : r.progress_or_interrupt_rx with
  | none => r
  | some [] => r
  | some (ProgressOrInterrupt.Progress process_result :: queue_rest) =>
      let report :=
        match process_result with
        | PropertyInfoResult.Success =>
            { r.report with record_processed_successful_count :=
                r.report.record_processed_successful_count + 1 }
        | PropertyInfoResult.SuccessPartial =>
            { r.report with record_processed_info_missing_count :=
                r.report.record_processed_info_missing_count + 1 }
        | PropertyInfoResult.Error record err =>
            { r.report with records_processed_failed :=
                r.report.records_processed_failed ++ [(record, err)] }
      { r with report := report
               progress_overall := r.progress_overall.inc 1
               progress_or_interrupt_rx := some queue_rest }
  | some (ProgressOrInterrupt.Interrupt :: queue_rest) =>
      Reporter.progress_bar_sync
        { r with interrupted := true
                 progress_overall := r.progress_overall.finish
                 progress_or_interrupt_rx := some queue_rest }
termination_by r.queueLength
decreasing_by
  simp_all [Reporter.queueLength]

/-- The per-event report update performed by `progress_bar_sync` on a
`Progress` event (the inner `match process_result` in src/reporter.rs),
extracted so that runs can be described as folds. -/
def Report.applyOutcome (report : Report) (process_result : PropertyInfoResult) :
    Report :=
  match process_result with
  | PropertyInfoResult.Success =>
      { report with record_processed_successful_count :=
          report.record_processed_successful_count + 1 }
  | PropertyInfoResult.SuccessPartial =>
      { report with record_processed_info_missing_count :=
          report.record_processed_info_missing_count + 1 }
  | PropertyInfoResult.Error record err =>
      { report with records_processed_failed :=
          report.records_processed_failed ++ [(record, err)] }

/-- Fuel-indexed consumption loop: calls `progress_bar_sync` until the merged
queue is exhausted or the interrupted flag is observed set.  Each
`progress_bar_sync` call on a non-empty queue consumes at least one event, so
fuel equal to the initial queue length reaches the fixpoint. -/
def Reporter.syncLoop : Nat → Reporter → Reporter
  | 0, r => r
  | fuel + 1, r =>
      if r.interrupted then r
      else if r.queueLength = 0 then r
      else Reporter.syncLoop fuel r.progress_bar_sync

/-- Modelled from the spec: the consumption loop driving `progress_bar_sync`
(the loop body of `t10_update_progress_bar` in the variant of the reporter not
present under src/; src/main.rs awaits it once as `reporter.progress_bar_sync().await`).
Per the spec (section 4.3), the loop "blocks on that queue" and "ends when the
progress-event producer signals completion (no more records) or when
interruption has been fully handled (including draining any already-queued
events)". -/
def Reporter.progress_bar_loop (r : Reporter) : Reporter :=
  Reporter.syncLoop r.queueLength r

/-- `Color` (crossterm): the colours used by `Colours` (src/colours.rs),
identified by their SGR parameter string. -/
def Color.blue : String := "34"

/-- Green. -/
def Color.green : String := "32"

/-- Cyan. -/
def Color.cyan : String := "36"

/-- Red. -/
def Color.red : String := "31"

/-- Yellow. -/
def Color.yellow : String := "33"

/-- The RGB colour used for partial-success items. -/
def Color.rgb216 : String := "38;2;216;216;0"

/-- `crossterm::style::ContentStyle` as used by `Colours` (src/colours.rs):
an optional foreground colour and the bold attribute. -/
structure ContentStyle where
  foreground_color : Option String
  bold : Bool
deriving DecidableEq, Repr

/-- Applying a `ContentStyle` to text: the styled display emits the style's
escape sequences, the content, and a reset. -/
def ContentStyle.apply (style : ContentStyle) (s : String) : String :=
  (if style.bold then "\x1b[1m" else "")
    ++ (match style.foreground_color with
        | some c => "\x1b[" ++ c ++ "m"
        | none => "")
    ++ s ++ "\x1b[0m"

namespace Colours

/-- `Colours::REPORT_BORDER` (src/colours.rs). -/
def REPORT_BORDER : ContentStyle := { foreground_color := some Color.blue, bold := true }

/-- `Colours::REPORT_TITLE` (src/colours.rs). -/
def REPORT_TITLE : ContentStyle := { foreground_color := some Color.cyan, bold := true }

/-- `Colours::REPORT_TITLE_ERROR` (src/colours.rs). -/
def REPORT_TITLE_ERROR : ContentStyle := { foreground_color := some Color.red, bold := true }

/-- `Colours::REPORT_LABEL` (src/colours.rs). -/
def REPORT_LABEL : ContentStyle := { foreground_color := none, bold := true }

/-- `Colours::REPORT_ITEM_SUCCESS` (src/colours.rs). -/
def REPORT_ITEM_SUCCESS : ContentStyle := { foreground_color := some Color.green, bold := true }

/-- `Colours::REPORT_ITEM_PARTIAL_SUCCESS` (src/colours.rs). -/
def REPORT_ITEM_PARTIAL_SUCCESS : ContentStyle :=
  { foreground_color := some Color.rgb216, bold := true }

/-- `Colours::REPORT_ITEM_FAILURE` (src/colours.rs). -/
def REPORT_ITEM_FAILURE : ContentStyle := { foreground_color := some Color.red, bold := true }

/-- `Colours::REPORT_ERROR_ITEM` (src/colours.rs). -/
def REPORT_ERROR_ITEM : ContentStyle := { foreground_color := none, bold := false }

/-- `Colours::REPORT_ERROR_MESSAGE` (src/colours.rs). -/
def REPORT_ERROR_MESSAGE : ContentStyle :=
  { foreground_color := some Color.yellow, bold := false }

end Colours

/-- Rust format padding: right-align to `width` (`\x7b:>Nw\x7d`, and the default
for integers). -/
def padLeft (width : Nat) (s : String) : String :=
  String.mk (List.replicate (width - s.length) ' ') ++ s

/-- Rust format padding: left-align to `width` (`\x7b:<Nw\x7d`, and the default
for strings). -/
def padRight (width : Nat) (s : String) : String :=
  s ++ String.mk (List.replicate (width - s.length) ' ')

/-- Rust zero padding (`\x7b:0Nw\x7d`). -/
def padZero (width : Nat) (s : String) : String :=
  String.mk (List.replicate (width - s.length) '0') ++ s

/-- One row of the error table in `Reporter::print_report` (src/reporter.rs). -/
def errorRow (entry : PropertyRecord × String) : String :=
  padLeft 5 (toString entry.1.val) ++ " | "
    ++ padRight 13 (Colours.REPORT_ERROR_ITEM.apply
        ("ABC123/" ++ padZero 2 (toString entry.1.val))) ++ " | "
    ++ padRight 30 (Colours.REPORT_ERROR_MESSAGE.apply entry.2) ++ "\n"

/-- `Reporter::print_report` (src/reporter.rs): renders the report text that is
written to stderr.  `&self` access is modelled as a pure function of the
reporter state; the text is built exactly as the `write!`/`writeln!` sequence
builds the `report` buffer. -/
def Reporter.print_report (r : Reporter) : String :=
  let self_report := r.report
  let failed_count := self_report.records_processed_failed.length
  "\n"
    ++ Colours.REPORT_BORDER.apply
        "------------------------------------------------------------" ++ "\n"
    ++ Colours.REPORT_TITLE.apply "# Report" ++ "\n"
    ++ "\n"
    ++ Colours.REPORT_TITLE.apply "## Summary" ++ "\n"
    ++ "\n"
    ++ padRight 35 (Colours.REPORT_LABEL.apply "* Records processed:") ++ " "
    ++ (if self_report.record_processed_successful_count > 0 then
          padLeft 7 (Colours.REPORT_ITEM_SUCCESS.apply
            (toString self_report.record_processed_successful_count))
        else
          padLeft 7 (toString self_report.record_processed_successful_count))
    ++ "\n"
    ++ padRight 35 (Colours.REPORT_LABEL.apply "* Records processed (missing info):")
    ++ " "
    ++ (if self_report.record_processed_info_missing_count > 0 then
          padLeft 7 (Colours.REPORT_ITEM_PARTIAL_SUCCESS.apply
            (toString self_report.record_processed_info_missing_count))
        else
          padLeft 7 (toString self_report.record_processed_info_missing_count))
    ++ "\n"
    ++ padRight 35 (Colours.REPORT_LABEL.apply "* Records with errors:") ++ " "
    ++ (if failed_count > 0 then
          padLeft 7 (Colours.REPORT_ITEM_FAILURE.apply (toString failed_count))
        else
          padLeft 7 (toString failed_count))
    ++ "\n"
    ++ padRight 35 (Colours.REPORT_LABEL.apply "* Records skipped (pre-existing):")
    ++ " " ++ padLeft 7 (toString self_report.record_skipped_count) ++ "\n"
    ++ (if failed_count > 0 then
          "\n"
            ++ Colours.REPORT_TITLE_ERROR.apply "## Errors" ++ "\n"
            ++ "\n"
            ++ padLeft 5 (Colours.REPORT_LABEL.apply "#") ++ " | "
            ++ padRight 13 (Colours.REPORT_LABEL.apply "title_number") ++ " | "
            ++ padRight 30 (Colours.REPORT_LABEL.apply "error") ++ "\n"
            ++ "----- | ------------- | ------------------------------\n"
            ++ String.join (self_report.records_processed_failed.map errorRow)
        else "")
    ++ Colours.REPORT_BORDER.apply
        "------------------------------------------------------------" ++ "\n"

/-- `last::t11_output_execution_report` (src/main.rs): emit the report. -/
def t11_output_execution_report (r : Reporter) : String :=
  r.print_report

/-- `reporter_future` (src/main.rs): run the progress consumption
(`t10_update_progress_bar`, whose driver loop is modelled by
`progress_bar_loop`), then unconditionally emit the execution report
(`t11_output_execution_report`).  Returns the final reporter state and the
emitted text. -/
def reporter_future (r : Reporter) : Reporter × String :=
  let r₂ := r.progress_bar_loop
  (r₂, t11_output_execution_report r₂)

/-- The merged-channel content for an uninterrupted run with `record_count`
records and `records_precompleted` already done: `processing_future`
(src/main.rs) sends `t07_retrieve_information n record delay` for each
processed pair, in index order, and no interrupt is ever delivered. -/
def uninterruptedMerged (record_count records_precompleted delay : Nat) :
    List ProgressOrInterrupt :=
  (processedPairs record_count records_precompleted).map
    (fun p => ProgressOrInterrupt.Progress (t07_retrieve_information p.1 p.2 delay))

/-! ## Unfolding lemmas for `progress_bar_sync` -/

/-- With no merged channel installed, `progress_bar_sync` does nothing. -/
theorem Reporter.sync_none (r : Reporter) (h : r.progress_or_interrupt_rx = none) :
    r.progress_bar_sync = r := by
  rw [Reporter.progress_bar_sync]
  split <;> simp_all

/-- With an exhausted merged channel, `progress_bar_sync` does nothing. -/
theorem Reporter.sync_nil (r : Reporter) (h : r.progress_or_interrupt_rx = some []) :
    r.progress_bar_sync = r := by
  rw [Reporter.progress_bar_sync]
  split <;> simp_all

/-- Consuming a `Progress` event applies its outcome to the report, advances
the bar by one, and pops the event; no other field changes. -/
theorem Reporter.sync_progress (r : Reporter) (res : PropertyInfoResult)
    (rest : List ProgressOrInterrupt)
    (h : r.progress_or_interrupt_rx = some (ProgressOrInterrupt.Progress res :: rest)) :
    r.progress_bar_sync =
      { r with report := r.report.applyOutcome res
               progress_overall := r.progress_overall.inc 1
               progress_or_interrupt_rx := some rest } := by
  cases res <;>
      (rw [Reporter.progress_bar_sync]; split <;> simp_all [Report.applyOutcome]) <;>
    (obtain ⟨rfl, rfl⟩ := h; rfl)

/-- Consuming an `Interrupt` event sets the flag, finishes the bar, pops the
event, and recurses to drain. -/
theorem Reporter.sync_interrupt (r : Reporter) (rest : List ProgressOrInterrupt)
    (h : r.progress_or_interrupt_rx = some (ProgressOrInterrupt.Interrupt :: rest)) :
    r.progress_bar_sync =
      Reporter.progress_bar_sync
        { r with interrupted := true
                 progress_overall := r.progress_overall.finish
                 progress_or_interrupt_rx := some rest } := by
  rw [Reporter.progress_bar_sync]
  split <;> simp_all

/-! ## Invariant lemmas for `progress_bar_sync` -/

/-- `progress_bar_sync` never touches the skipped count. -/
theorem Reporter.sync_skipped (r : Reporter) :
    (r.progress_bar_sync).report.record_skipped_count
      = r.report.record_skipped_count := by
  induction r using Reporter.progress_bar_sync.induct with
  | case1 r h => rw [Reporter.sync_none r h]
  | case2 r h => rw [Reporter.sync_nil r h]
  | case3 r res rest h =>
      rw [Reporter.sync_progress r res rest h]
      cases res <;> simp [Report.applyOutcome]
  | case4 r rest h ih =>
      rw [Reporter.sync_interrupt r rest h]
      exact ih

/-- `progress_bar_sync` never resets the interrupted flag. -/
theorem Reporter.sync_interrupted_mono (r : Reporter) (h : r.interrupted = true) :
    (r.progress_bar_sync).interrupted = true := by
  induction r using Reporter.progress_bar_sync.induct with
  | case1 r hq => rw [Reporter.sync_none r hq]; exact h
  | case2 r hq => rw [Reporter.sync_nil r hq]; exact h
  | case3 r res rest hq =>
      rw [Reporter.sync_progress r res rest hq]
      exact h
  | case4 r rest hq ih =>
      rw [Reporter.sync_interrupt r rest hq]
      exact ih rfl

/-- `progress_bar_sync` only ever sets the interrupted flag in response to an
`Interrupt` event present on the merged channel. -/
theorem Reporter.sync_interrupted_of (r : Reporter)
    (h : (r.progress_bar_sync).interrupted = true) :
    r.interrupted = true
      ∨ ProgressOrInterrupt.Interrupt ∈ r.progress_or_interrupt_rx.getD [] := by
  induction r using Reporter.progress_bar_sync.induct with
  | case1 r hq => rw [Reporter.sync_none r hq] at h; exact Or.inl h
  | case2 r hq => rw [Reporter.sync_nil r hq] at h; exact Or.inl h
  | case3 r res rest hq =>
      rw [Reporter.sync_progress r res rest hq] at h
      exact Or.inl h
  | case4 r rest hq ih =>
      right
      simp [hq]

/-- `progress_bar_sync` preserves the invariant that the bar is finished
exactly when the interrupted flag is set. -/
theorem Reporter.sync_finished_eq_interrupted (r : Reporter)
    (h : r.progress_overall.finished = r.interrupted) :
    (r.progress_bar_sync).progress_overall.finished
      = (r.progress_bar_sync).interrupted := by
  induction r using Reporter.progress_bar_sync.induct with
  | case1 r hq => rw [Reporter.sync_none r hq]; exact h
  | case2 r hq => rw [Reporter.sync_nil r hq]; exact h
  | case3 r res rest hq =>
      rw [Reporter.sync_progress r res rest hq]
      simpa [ProgressBar.inc] using h
  | case4 r rest hq ih =>
      rw [Reporter.sync_interrupt r rest hq]
      exact ih (by simp [ProgressBar.finish])

/-! ## List helpers for the record stream -/

/-- Zipping a list with itself duplicates each element. -/
theorem List.zip_self {α : Type} (l : List α) :
    l.zip l = l.map (fun a => (a, a)) := by
  induction l with
  | nil => rfl
  | cons a l ih => simp [ih]

/-- The enumerated, skipped record stream is the tail of the index range,
each index paired with its record. -/
theorem processedPairs_eq (N S : Nat) :
    processedPairs N S
      = ((List.range N).drop S).map (fun i => (i, PropertyRecord.mk i)) := by
  unfold processedPairs t02_stream_property_title_records
  rw [List.enum_map, List.enum_eq_zip_range, List.length_range, List.zip_self,
    List.map_map, ← List.map_drop]
  rfl

/-- The authentication waits happen exactly on the processed indices equal
to zero. -/
theorem authWaitIndices_eq (N S : Nat) :
    authWaitIndices N S = ((List.range N).drop S).filter (fun i => i == 0) := by
  unfold authWaitIndices t06_authenticate_waits
  rw [processedPairs_eq, List.filter_map, List.map_map]
  have h₁ : ((fun p : Nat × PropertyRecord => p.1 == 0)
      ∘ fun i : Nat => (i, PropertyRecord.mk i)) = fun i : Nat => i == 0 := rfl
  have h₂ : (Prod.fst ∘ fun i : Nat => (i, PropertyRecord.mk i))
      = fun i : Nat => i := rfl
  rw [h₁, h₂, List.map_id']

/-! ## Run lemmas for the consumption loop -/

/-- Applying one outcome never touches the skipped count. -/
theorem Report.applyOutcome_skipped (rep : Report) (res : PropertyInfoResult) :
    (rep.applyOutcome res).record_skipped_count = rep.record_skipped_count := by
  cases res <;> rfl

/-- Applying one outcome grows the processed tally by exactly one. -/
theorem Report.applyOutcome_sum (rep : Report) (res : PropertyInfoResult) :
    (rep.applyOutcome res).record_processed_successful_count
        + (rep.applyOutcome res).record_processed_info_missing_count
        + (rep.applyOutcome res).records_processed_failed.length
      = rep.record_processed_successful_count
        + rep.record_processed_info_missing_count
        + rep.records_processed_failed.length + 1 := by
  cases res <;> simp [Report.applyOutcome] <;> omega

/-- Folding outcomes never touches the skipped count. -/
theorem Report.foldl_applyOutcome_skipped (es : List PropertyInfoResult)
    (rep : Report) :
    (es.foldl Report.applyOutcome rep).record_skipped_count
      = rep.record_skipped_count := by
  induction es generalizing rep with
  | nil => rfl
  | cons e es ih => rw [List.foldl_cons, ih, Report.applyOutcome_skipped]

/-- Folding outcomes grows the processed tally by the number of outcomes. -/
theorem Report.foldl_applyOutcome_sum (es : List PropertyInfoResult)
    (rep : Report) :
    (es.foldl Report.applyOutcome rep).record_processed_successful_count
        + (es.foldl Report.applyOutcome rep).record_processed_info_missing_count
        + (es.foldl Report.applyOutcome rep).records_processed_failed.length
      = rep.record_processed_successful_count
        + rep.record_processed_info_missing_count
        + rep.records_processed_failed.length + es.length := by
  induction es generalizing rep with
  | nil => simp
  | cons e es ih =>
      rw [List.foldl_cons, ih, Report.applyOutcome_sum, List.length_cons]
      omega

/-- The consumption loop does nothing once the interrupted flag is set. -/
theorem Reporter.syncLoop_interrupted (fuel : Nat) (r : Reporter)
    (h : r.interrupted = true) :
    Reporter.syncLoop fuel r = r := by
  cases fuel <;> simp [Reporter.syncLoop, h]

/-- The consumption loop over a queue of pure progress events folds every
outcome into the report in order, advances the bar once per event, leaves
the interrupted flag and the finished flag untouched, and drains the queue. -/
theorem Reporter.syncLoop_progress_run (es : List PropertyInfoResult)
    (r : Reporter) (hI : r.interrupted = false)
    (hq : r.progress_or_interrupt_rx = some (es.map ProgressOrInterrupt.Progress)) :
    (Reporter.syncLoop es.length r).report = es.foldl Report.applyOutcome r.report
      ∧ (Reporter.syncLoop es.length r).interrupted = false
      ∧ (Reporter.syncLoop es.length r).progress_overall.position
          = r.progress_overall.position + es.length
      ∧ (Reporter.syncLoop es.length r).progress_overall.length
          = r.progress_overall.length
      ∧ (Reporter.syncLoop es.length r).progress_overall.finished
          = r.progress_overall.finished
      ∧ (Reporter.syncLoop es.length r).progress_or_interrupt_rx = some [] := by
  induction es generalizing r with
  | nil =>
      simp [Reporter.syncLoop, hI, hq]
  | cons e es ih =>
      have hlen : (ProgressOrInterrupt.Progress e ::
          es.map ProgressOrInterrupt.Progress).length = es.length + 1 := by
        simp
      have hstep : Reporter.syncLoop (e :: es).length r
          = Reporter.syncLoop es.length r.progress_bar_sync := by
        simp only [List.length_cons, Reporter.syncLoop, hI, Bool.false_eq_true,
          if_false, Reporter.queueLength, hq, Option.getD_some, List.map_cons,
          hlen]
        simp
      rw [hstep, Reporter.sync_progress r e (es.map ProgressOrInterrupt.Progress)
        (by rw [hq]; rfl)]
      obtain ⟨h₁, h₂, h₃, h₄, h₅, h₆⟩ :=
        ih { r with progress_overall := r.progress_overall.inc 1
                    report := r.report.applyOutcome e
                    progress_or_interrupt_rx :=
                      some (es.map ProgressOrInterrupt.Progress) } hI rfl
      refine ⟨?_, h₂, ?_, ?_, ?_, h₆⟩
      · rw [h₁]; rfl
      · rw [h₃]; simp only [ProgressBar.inc, List.length_cons]; omega
      · rw [h₄]; rfl
      · rw [h₅]; rfl

/-- The consumption loop over a queue of progress events followed by the
one-shot interrupt folds exactly the pre-interrupt outcomes into the report,
sets the interrupted flag, finishes the bar (position at the bar length), and
drains the queue. -/
theorem Reporter.syncLoop_interrupt_end_run (es : List PropertyInfoResult)
    (r : Reporter) (hI : r.interrupted = false)
    (hq : r.progress_or_interrupt_rx
      = some (es.map ProgressOrInterrupt.Progress ++ [ProgressOrInterrupt.Interrupt])) :
    (Reporter.syncLoop (es.length + 1) r).report
        = es.foldl Report.applyOutcome r.report
      ∧ (Reporter.syncLoop (es.length + 1) r).interrupted = true
      ∧ (Reporter.syncLoop (es.length + 1) r).progress_overall.finished = true
      ∧ (Reporter.syncLoop (es.length + 1) r).progress_overall.position
          = r.progress_overall.length
      ∧ (Reporter.syncLoop (es.length + 1) r).progress_or_interrupt_rx = some [] := by
  induction es generalizing r with
  | nil =>
      have hstep : Reporter.syncLoop (List.length ([] : List PropertyInfoResult) + 1) r
          = r.progress_bar_sync := by
        simp [Reporter.syncLoop, hI, Reporter.queueLength, hq]
      rw [hstep, Reporter.sync_interrupt r [] (by rw [hq]; rfl),
        Reporter.sync_nil _ rfl]
      simp [ProgressBar.finish]
  | cons e es ih =>
      have hstep : Reporter.syncLoop ((e :: es).length + 1) r
          = Reporter.syncLoop (es.length + 1) r.progress_bar_sync := by
        simp [Reporter.syncLoop, hI, Reporter.queueLength, hq]
      rw [hstep, Reporter.sync_progress r e
        (es.map ProgressOrInterrupt.Progress ++ [ProgressOrInterrupt.Interrupt])
        (by rw [hq]; rfl)]
      obtain ⟨h₁, h₂, h₃, h₄, h₅⟩ :=
        ih { r with progress_overall := r.progress_overall.inc 1
                    report := r.report.applyOutcome e
                    progress_or_interrupt_rx :=
                      some (es.map ProgressOrInterrupt.Progress
                        ++ [ProgressOrInterrupt.Interrupt]) } hI rfl
      refine ⟨?_, h₂, h₃, ?_, h₅⟩
      · rw [h₁]; rfl
      · rw [h₄]; rfl

/-- The consumption loop preserves the invariant that the bar is finished
exactly when the interrupted flag is set. -/
theorem Reporter.syncLoop_finished_eq_interrupted (fuel : Nat) (r : Reporter)
    (h : r.progress_overall.finished = r.interrupted) :
    (Reporter.syncLoop fuel r).progress_overall.finished
      = (Reporter.syncLoop fuel r).interrupted := by
  induction fuel generalizing r with
  | zero => exact h
  | succ fuel ih =>
      rw [Reporter.syncLoop]
      split
      · exact h
      · split
        · exact h
        · exact ih _ (Reporter.sync_finished_eq_interrupted r h)

/-! ## Claim C1 -/

/-- C1: for every index `n`, the fetch stage's outcome classification
`t07_retrieve_information` is a pure, total function of `n`: `n % 33 == 0`
yields `Error(record, "Could not find record information online.")`, otherwise
`n % 3 == 0` yields `SuccessPartial`, otherwise `Success`.  (The source tests
`n % 11 == 0 && n % 3 == 0`, which is equivalent to `n % 33 == 0`.) -/
theorem t07_outcome_matches_mod33_rule (n : Nat) (record : PropertyRecord)
    (delay : Nat) :
    t07_retrieve_information n record delay =
      if n % 33 == 0 then
        PropertyInfoResult.Error record "Could not find record information online."
      else if n % 3 == 0 then
        PropertyInfoResult.SuccessPartial
      else
        PropertyInfoResult.Success := by
  unfold t07_retrieve_information
  split_ifs <;> simp_all <;> omega

/-! ## Claim C2 -/

/-- C2 counterexample: in a run with total `N = 2` and resume offset `S = 1`,
the claim says authentication waits on the record with index `1`; the code
passes `first_time = (n == 0)`, so no processed record waits at all. -/
theorem auth_wait_missing_at_resume_offset_one :
    1 < 2 ∧ authWaitIndices 2 1 ≠ [1] := by
  decide

/-- C2 amended: the authenticate stage performs its wait exactly on the record
with index `0` (the `first_time` flag is `n == 0`): in a run with resume
offset `S = 0` and at least one record it waits on index `0` only, and in a
run with `S ≥ 1` it never waits. -/
theorem auth_wait_only_on_index_zero (N S : Nat) :
    authWaitIndices N S = if S = 0 ∧ 0 < N then [0] else [] := by
  rw [authWaitIndices_eq]
  rcases Nat.eq_zero_or_pos S with rfl | hS
  · rw [List.drop_zero]
    cases N with
    | zero => simp
    | succ n =>
        rw [List.range_succ_eq_map]
        simp only [Nat.lt_irrefl, true_and, Nat.succ_pos, if_pos]
        rw [List.filter_cons_of_pos (by simp), List.filter_map]
        have : List.filter ((fun i : Nat => i == 0) ∘ Nat.succ) (List.range n)
            = [] := by
          rw [List.filter_eq_nil_iff]
          intro a _
          simp [Function.comp]
        rw [this]
        rfl
  · have hS0 : ¬(S = 0 ∧ 0 < N) := by omega
    rw [if_neg hS0, List.filter_eq_nil_iff]
    intro a ha
    rw [List.mem_drop_iff_getElem] at ha
    obtain ⟨i, hm, ha⟩ := ha
    rw [List.getElem_range] at ha
    simp only [beq_iff_eq]
    omega

/-! ## Claim C3 -/

/-- C3 counterexample: the merged queue delivers the interrupt first and a
progress event for one record after it (the pipeline in `main.rs` keeps
emitting after an interrupt, and the merge threads may order the interrupt
before an already-emitted event).  Zero records had their progress event
observed before the interrupt (`k = 0`), yet the final report counts one
success: on `Interrupt` the aggregator recursively calls `progress_bar_sync`
(the `// Empty remaining queue.` recursion) and mutates the report after the
interruption was observed. -/
theorem report_mutated_after_interrupt_observed :
    (((Reporter.new 2 0 (some ())).progress_bar_startup
        [ProgressOrInterrupt.Interrupt,
         ProgressOrInterrupt.Progress PropertyInfoResult.Success]).progress_bar_loop.interrupted
          = true)
      ∧ (((Reporter.new 2 0 (some ())).progress_bar_startup
        [ProgressOrInterrupt.Interrupt,
         ProgressOrInterrupt.Progress PropertyInfoResult.Success]).progress_bar_loop.report.record_processed_successful_count
          = 1) := by
  constructor <;>
    simp [Reporter.progress_bar_loop, Reporter.syncLoop, Reporter.queueLength,
      Reporter.progress_bar_startup, Reporter.new, Reporter.progress_bar_sync,
      ProgressBar.new, ProgressBar.set_position, ProgressBar.inc,
      ProgressBar.finish, Report.default]

/-- C3 amended: if the merged queue delivers exactly `k` progress events and
then the interrupt (no events ordered after it), the final report reflects
exactly those `k` outcomes, in order, and the interrupted flag is true; once
the interrupted flag is observed set, the consumption loop performs no further
report mutation.  (If the merge ordered progress events after the interrupt,
the drain recursion applies one of them, as the counterexample shows.) -/
theorem interrupt_run_report_reflects_queued_outcomes (N S : Nat)
    (es : List PropertyInfoResult) :
    (((Reporter.new N S (some ())).progress_bar_startup
        (es.map ProgressOrInterrupt.Progress
          ++ [ProgressOrInterrupt.Interrupt])).progress_bar_loop.report
        = es.foldl Report.applyOutcome
            { Report.default with record_skipped_count := S })
      ∧ (((Reporter.new N S (some ())).progress_bar_startup
          (es.map ProgressOrInterrupt.Progress
            ++ [ProgressOrInterrupt.Interrupt])).progress_bar_loop.interrupted
          = true)
      ∧ (∀ r : Reporter, r.interrupted = true → r.progress_bar_loop = r) := by
  have hq : ((Reporter.new N S (some ())).progress_bar_startup
      (es.map ProgressOrInterrupt.Progress
        ++ [ProgressOrInterrupt.Interrupt])).progress_or_interrupt_rx
      = some (es.map ProgressOrInterrupt.Progress
        ++ [ProgressOrInterrupt.Interrupt]) := rfl
  have hlen : ((Reporter.new N S (some ())).progress_bar_startup
      (es.map ProgressOrInterrupt.Progress
        ++ [ProgressOrInterrupt.Interrupt])).queueLength = es.length + 1 := by
    simp [Reporter.queueLength, hq]
  obtain ⟨h₁, h₂, h₃, h₄, h₅⟩ :=
    Reporter.syncLoop_interrupt_end_run es
      ((Reporter.new N S (some ())).progress_bar_startup
        (es.map ProgressOrInterrupt.Progress
          ++ [ProgressOrInterrupt.Interrupt])) rfl hq
  refine ⟨?_, ?_, ?_⟩
  · rw [Reporter.progress_bar_loop, hlen, h₁]; rfl
  · rw [Reporter.progress_bar_loop, hlen, h₂]
  · intro r h
    rw [Reporter.progress_bar_loop, Reporter.syncLoop_interrupted _ r h]

/-- C3 amended witness: one success observed, then the interrupt, nothing
after it — the final report holds exactly that success and the flag is set. -/
theorem interrupt_run_report_reflects_queued_outcomes_witness :
    (((Reporter.new 2 0 (some ())).progress_bar_startup
        ([PropertyInfoResult.Success].map ProgressOrInterrupt.Progress
          ++ [ProgressOrInterrupt.Interrupt])).progress_bar_loop.report
        = [PropertyInfoResult.Success].foldl Report.applyOutcome
            { Report.default with record_skipped_count := 0 })
      ∧ (((Reporter.new 2 0 (some ())).progress_bar_startup
          ([PropertyInfoResult.Success].map ProgressOrInterrupt.Progress
            ++ [ProgressOrInterrupt.Interrupt])).progress_bar_loop.interrupted
          = true)
      ∧ (∀ r : Reporter, r.interrupted = true → r.progress_bar_loop = r) :=
  interrupt_run_report_reflects_queued_outcomes 2 0 [PropertyInfoResult.Success]

/-! ## Claim C4 -/

/-- C4: consuming one `Progress` event performs exactly one report mutation,
determined by the outcome — `Success` increments the success counter only,
`SuccessPartial` increments the missing-info counter only, `Error` appends the
`(record, message)` pair at the end of the error list (preserving arrival
order) — and advances the visual position by exactly one; the interrupted
flag, bar length and finished flag are untouched. -/
theorem progress_event_single_update (r : Reporter) (res : PropertyInfoResult)
    (rest : List ProgressOrInterrupt)
    (h : r.progress_or_interrupt_rx
      = some (ProgressOrInterrupt.Progress res :: rest)) :
    r.progress_bar_sync.progress_overall.position
        = r.progress_overall.position + 1
      ∧ r.progress_bar_sync.interrupted = r.interrupted
      ∧ r.progress_bar_sync.progress_overall.length = r.progress_overall.length
      ∧ r.progress_bar_sync.progress_overall.finished
          = r.progress_overall.finished
      ∧ r.progress_bar_sync.progress_or_interrupt_rx = some rest
      ∧ (res = PropertyInfoResult.Success →
          r.progress_bar_sync.report
            = { r.report with record_processed_successful_count :=
                r.report.record_processed_successful_count + 1 })
      ∧ (res = PropertyInfoResult.SuccessPartial →
          r.progress_bar_sync.report
            = { r.report with record_processed_info_missing_count :=
                r.report.record_processed_info_missing_count + 1 })
      ∧ (∀ (record : PropertyRecord) (msg : String),
          res = PropertyInfoResult.Error record msg →
          r.progress_bar_sync.report
            = { r.report with records_processed_failed :=
                r.report.records_processed_failed ++ [(record, msg)] }) := by
  rw [Reporter.sync_progress r res rest h]
  refine ⟨rfl, rfl, rfl, rfl, rfl, ?_, ?_, ?_⟩
  · rintro rfl; rfl
  · rintro rfl; rfl
  · rintro record msg rfl; rfl

/-- C4 witness: one `Success` event on the merged queue of a fresh reporter. -/
theorem progress_event_single_update_witness :
    ((Reporter.new 1 0 none).progress_bar_startup
          [ProgressOrInterrupt.Progress PropertyInfoResult.Success]).progress_bar_sync.progress_overall.position
        = ((Reporter.new 1 0 none).progress_bar_startup
          [ProgressOrInterrupt.Progress PropertyInfoResult.Success]).progress_overall.position + 1
      ∧ ((Reporter.new 1 0 none).progress_bar_startup
          [ProgressOrInterrupt.Progress PropertyInfoResult.Success]).progress_bar_sync.interrupted
        = ((Reporter.new 1 0 none).progress_bar_startup
          [ProgressOrInterrupt.Progress PropertyInfoResult.Success]).interrupted
      ∧ ((Reporter.new 1 0 none).progress_bar_startup
          [ProgressOrInterrupt.Progress PropertyInfoResult.Success]).progress_bar_sync.progress_overall.length
        = ((Reporter.new 1 0 none).progress_bar_startup
          [ProgressOrInterrupt.Progress PropertyInfoResult.Success]).progress_overall.length
      ∧ ((Reporter.new 1 0 none).progress_bar_startup
          [ProgressOrInterrupt.Progress PropertyInfoResult.Success]).progress_bar_sync.progress_overall.finished
        = ((Reporter.new 1 0 none).progress_bar_startup
          [ProgressOrInterrupt.Progress PropertyInfoResult.Success]).progress_overall.finished
      ∧ ((Reporter.new 1 0 none).progress_bar_startup
          [ProgressOrInterrupt.Progress PropertyInfoResult.Success]).progress_bar_sync.progress_or_interrupt_rx
        = some []
      ∧ (PropertyInfoResult.Success = PropertyInfoResult.Success →
          ((Reporter.new 1 0 none).progress_bar_startup
            [ProgressOrInterrupt.Progress PropertyInfoResult.Success]).progress_bar_sync.report
            = { ((Reporter.new 1 0 none).progress_bar_startup
                [ProgressOrInterrupt.Progress PropertyInfoResult.Success]).report with
                record_processed_successful_count :=
                  ((Reporter.new 1 0 none).progress_bar_startup
                    [ProgressOrInterrupt.Progress PropertyInfoResult.Success]).report.record_processed_successful_count + 1 })
      ∧ (PropertyInfoResult.Success = PropertyInfoResult.SuccessPartial →
          ((Reporter.new 1 0 none).progress_bar_startup
            [ProgressOrInterrupt.Progress PropertyInfoResult.Success]).progress_bar_sync.report
            = { ((Reporter.new 1 0 none).progress_bar_startup
                [ProgressOrInterrupt.Progress PropertyInfoResult.Success]).report with
                record_processed_info_missing_count :=
                  ((Reporter.new 1 0 none).progress_bar_startup
                    [ProgressOrInterrupt.Progress PropertyInfoResult.Success]).report.record_processed_info_missing_count + 1 })
      ∧ (∀ (record : PropertyRecord) (msg : String),
          PropertyInfoResult.Success = PropertyInfoResult.Error record msg →
          ((Reporter.new 1 0 none).progress_bar_startup
            [ProgressOrInterrupt.Progress PropertyInfoResult.Success]).progress_bar_sync.report
            = { ((Reporter.new 1 0 none).progress_bar_startup
                [ProgressOrInterrupt.Progress PropertyInfoResult.Success]).report with
                records_processed_failed :=
                  ((Reporter.new 1 0 none).progress_bar_startup
                    [ProgressOrInterrupt.Progress PropertyInfoResult.Success]).report.records_processed_failed ++ [(record, msg)] }) :=
  progress_event_single_update
    ((Reporter.new 1 0 none).progress_bar_startup
      [ProgressOrInterrupt.Progress PropertyInfoResult.Success])
    PropertyInfoResult.Success [] rfl

/-! ## Claim C5 -/

/-- C5: for an uninterrupted run with total `N` and resume offset `S`, the
final report has `skipped = S` and
`success + partial + errors = N - S`; in particular the `count = 10, skip = 0`
run yields success 6, partial 3, one error (record index 0), skipped 0. -/
theorem uninterrupted_run_report_totals (N S delay : Nat) :
    ((((Reporter.new N S (some ())).progress_bar_startup
          (uninterruptedMerged N S delay)).progress_bar_loop.report.record_skipped_count
        = S)
      ∧ ((((Reporter.new N S (some ())).progress_bar_startup
          (uninterruptedMerged N S delay)).progress_bar_loop.report.record_processed_successful_count
          + ((Reporter.new N S (some ())).progress_bar_startup
            (uninterruptedMerged N S delay)).progress_bar_loop.report.record_processed_info_missing_count
          + ((Reporter.new N S (some ())).progress_bar_startup
            (uninterruptedMerged N S delay)).progress_bar_loop.report.records_processed_failed.length)
        = N - S))
    ∧ ((Reporter.new 10 0 (some ())).progress_bar_startup
          (uninterruptedMerged 10 0 50)).progress_bar_loop.report
        = { record_skipped_count := 0
            record_processed_successful_count := 6
            record_processed_info_missing_count := 3
            records_processed_failed :=
              [(PropertyRecord.mk 0, "Could not find record information online.")] } := by
  constructor
  · have hmerged : uninterruptedMerged N S delay
        = ((processedPairs N S).map
            (fun p => t07_retrieve_information p.1 p.2 delay)).map
          ProgressOrInterrupt.Progress := by
      rw [uninterruptedMerged, List.map_map]
      rfl
    have hq : ((Reporter.new N S (some ())).progress_bar_startup
        (uninterruptedMerged N S delay)).progress_or_interrupt_rx
        = some (((processedPairs N S).map
            (fun p => t07_retrieve_information p.1 p.2 delay)).map
          ProgressOrInterrupt.Progress) := by
      rw [← hmerged]
      rfl
    have hlen : ((processedPairs N S).map
        (fun p => t07_retrieve_information p.1 p.2 delay)).length = N - S := by
      simp [processedPairs, t02_stream_property_title_records]
    have hfuel : ((Reporter.new N S (some ())).progress_bar_startup
        (uninterruptedMerged N S delay)).queueLength
        = ((processedPairs N S).map
            (fun p => t07_retrieve_information p.1 p.2 delay)).length := by
      simp [Reporter.queueLength, hq]
    obtain ⟨h₁, h₂, h₃, h₄, h₅, h₆⟩ :=
      Reporter.syncLoop_progress_run
        ((processedPairs N S).map (fun p => t07_retrieve_information p.1 p.2 delay))
        ((Reporter.new N S (some ())).progress_bar_startup
          (uninterruptedMerged N S delay)) rfl hq
    constructor
    · rw [Reporter.progress_bar_loop, hfuel, h₁,
        Report.foldl_applyOutcome_skipped]
      rfl
    · rw [Reporter.progress_bar_loop, hfuel, h₁,
        Report.foldl_applyOutcome_sum, hlen]
      show 0 + 0 + 0 + (N - S) = N - S
      omega
  · exact (Reporter.syncLoop_progress_run
      [PropertyInfoResult.Error (PropertyRecord.mk 0)
          "Could not find record information online.",
        PropertyInfoResult.Success, PropertyInfoResult.Success,
        PropertyInfoResult.SuccessPartial, PropertyInfoResult.Success,
        PropertyInfoResult.Success, PropertyInfoResult.SuccessPartial,
        PropertyInfoResult.Success, PropertyInfoResult.Success,
        PropertyInfoResult.SuccessPartial]
      ((Reporter.new 10 0 (some ())).progress_bar_startup
        (uninterruptedMerged 10 0 50)) rfl rfl).1.trans rfl

/-! ## Claim C6 -/

/-- C6 counterexample: a run that completes normally (queue fully drained, the
one record processed into the report, no interruption) terminates with the
progress bar not finished: `progress_bar_sync` only calls
`ProgressBar::finish` in its `Interrupt` branch, so on the normal-completion
path progress tracking is never finalized — the claim's "progress tracking is
finalized on every termination path" fails.  (The report is still emitted,
per the amended claim.) -/
theorem normal_completion_leaves_bar_unfinished :
    ((reporter_future ((Reporter.new 1 0 (some ())).progress_bar_startup
        [ProgressOrInterrupt.Progress PropertyInfoResult.Success])).1.progress_overall.finished
        = false)
      ∧ ((reporter_future ((Reporter.new 1 0 (some ())).progress_bar_startup
        [ProgressOrInterrupt.Progress PropertyInfoResult.Success])).1.interrupted
        = false)
      ∧ ((reporter_future ((Reporter.new 1 0 (some ())).progress_bar_startup
        [ProgressOrInterrupt.Progress PropertyInfoResult.Success])).1.queueLength
        = 0)
      ∧ ((reporter_future ((Reporter.new 1 0 (some ())).progress_bar_startup
        [ProgressOrInterrupt.Progress PropertyInfoResult.Success])).1.report.record_processed_successful_count
        = 1) := by
  refine ⟨?_, ?_, ?_, ?_⟩ <;>
    simp [reporter_future, Reporter.progress_bar_loop, Reporter.syncLoop,
      Reporter.queueLength, Reporter.progress_bar_startup, Reporter.new,
      Reporter.progress_bar_sync, ProgressBar.new, ProgressBar.set_position,
      ProgressBar.inc, ProgressBar.finish, Report.default,
      t11_output_execution_report]

/-- C6 amended: on every termination path of the consumption — normal
completion of the queue or interruption — `reporter_future` emits the report
text of the final reporter state (emission is never skipped); progress
tracking is finalized exactly on the interruption path (the bar ends finished
iff the run ends interrupted). -/
theorem report_emission_on_every_termination_path (N S : Nat)
    (irx : Option Unit) (merged : List ProgressOrInterrupt) :
    ((reporter_future ((Reporter.new N S irx).progress_bar_startup merged)).2
        = ((Reporter.new N S irx).progress_bar_startup
            merged).progress_bar_loop.print_report)
      ∧ ((reporter_future ((Reporter.new N S irx).progress_bar_startup merged)).1
        = ((Reporter.new N S irx).progress_bar_startup merged).progress_bar_loop)
      ∧ (((Reporter.new N S irx).progress_bar_startup
            merged).progress_bar_loop.progress_overall.finished
        = ((Reporter.new N S irx).progress_bar_startup
            merged).progress_bar_loop.interrupted) := by
  refine ⟨rfl, rfl, Reporter.syncLoop_finished_eq_interrupted _ _ ?_⟩
  cases irx <;> rfl

/-- C6 amended witness: the one-success interrupted-free run — the emitted
text is the print of the final state, and the bar's finished flag agrees with
the (unset) interrupted flag. -/
theorem report_emission_on_every_termination_path_witness :
    ((reporter_future ((Reporter.new 1 0 (some ())).progress_bar_startup
        [ProgressOrInterrupt.Progress PropertyInfoResult.Success])).2
        = ((Reporter.new 1 0 (some ())).progress_bar_startup
            [ProgressOrInterrupt.Progress PropertyInfoResult.Success]).progress_bar_loop.print_report)
      ∧ ((reporter_future ((Reporter.new 1 0 (some ())).progress_bar_startup
          [ProgressOrInterrupt.Progress PropertyInfoResult.Success])).1
        = ((Reporter.new 1 0 (some ())).progress_bar_startup
            [ProgressOrInterrupt.Progress PropertyInfoResult.Success]).progress_bar_loop)
      ∧ (((Reporter.new 1 0 (some ())).progress_bar_startup
            [ProgressOrInterrupt.Progress PropertyInfoResult.Success]).progress_bar_loop.progress_overall.finished
        = ((Reporter.new 1 0 (some ())).progress_bar_startup
            [ProgressOrInterrupt.Progress PropertyInfoResult.Success]).progress_bar_loop.interrupted) :=
  report_emission_on_every_termination_path 1 0 (some ())
    [ProgressOrInterrupt.Progress PropertyInfoResult.Success]

/-! ## Claim C7 -/

/-- C7: the interrupted flag is monotonic — `Reporter::new` initializes it
`false`, `progress_bar_startup` never changes it, `progress_bar_sync` never
resets it once `true`, and `progress_bar_sync` sets it to `true` only when an
`Interrupt` event is present on the merged channel. -/
theorem interrupted_flag_monotonic (N S : Nat) (irx : Option Unit)
    (merged : List ProgressOrInterrupt) (r : Reporter) :
    (Reporter.new N S irx).interrupted = false
      ∧ (r.progress_bar_startup merged).interrupted = r.interrupted
      ∧ (r.interrupted = true → r.progress_bar_sync.interrupted = true)
      ∧ (r.progress_bar_sync.interrupted = true →
          r.interrupted = true
            ∨ ProgressOrInterrupt.Interrupt ∈ r.progress_or_interrupt_rx.getD []) := by
  refine ⟨rfl, ?_, Reporter.sync_interrupted_mono r, Reporter.sync_interrupted_of r⟩
  rw [Reporter.progress_bar_startup]
  split
  · rfl
  · split <;> rfl

/-- C7 witness: the monotonicity facts instantiated on a reporter whose merged
queue holds the one-shot interrupt. -/
theorem interrupted_flag_monotonic_witness :
    (Reporter.new 2 0 (some ())).interrupted = false
      ∧ (((Reporter.new 2 0 (some ())).progress_bar_startup
          [ProgressOrInterrupt.Interrupt]).progress_bar_startup []).interrupted
        = ((Reporter.new 2 0 (some ())).progress_bar_startup
          [ProgressOrInterrupt.Interrupt]).interrupted
      ∧ (((Reporter.new 2 0 (some ())).progress_bar_startup
            [ProgressOrInterrupt.Interrupt]).interrupted = true →
          ((Reporter.new 2 0 (some ())).progress_bar_startup
            [ProgressOrInterrupt.Interrupt]).progress_bar_sync.interrupted = true)
      ∧ (((Reporter.new 2 0 (some ())).progress_bar_startup
            [ProgressOrInterrupt.Interrupt]).progress_bar_sync.interrupted = true →
          ((Reporter.new 2 0 (some ())).progress_bar_startup
            [ProgressOrInterrupt.Interrupt]).interrupted = true
            ∨ ProgressOrInterrupt.Interrupt
              ∈ ((Reporter.new 2 0 (some ())).progress_bar_startup
                [ProgressOrInterrupt.Interrupt]).progress_or_interrupt_rx.getD []) :=
  interrupted_flag_monotonic 2 0 (some ()) []
    ((Reporter.new 2 0 (some ())).progress_bar_startup
      [ProgressOrInterrupt.Interrupt])

/-! ## Claim C8 -/

/-- C8 counterexample: with the merged queue `[Interrupt, Progress Success]`
on a fresh two-record reporter, consuming the interrupt sets the flag and
finishes the bar at position 2 (the length), but the drain recursion then
consumes the queued progress event and advances the position to 3 — a
position advance by the consumption logic after the interrupt was observed,
contradicting the claim. -/
theorem position_advances_after_interrupt_observed :
    (((Reporter.new 2 0 (some ())).progress_bar_startup
        [ProgressOrInterrupt.Interrupt,
         ProgressOrInterrupt.Progress PropertyInfoResult.Success]).progress_bar_sync.interrupted
        = true)
      ∧ (((Reporter.new 2 0 (some ())).progress_bar_startup
        [ProgressOrInterrupt.Interrupt,
         ProgressOrInterrupt.Progress PropertyInfoResult.Success]).progress_bar_sync.progress_overall.finished
        = true)
      ∧ (((Reporter.new 2 0 (some ())).progress_bar_startup
        [ProgressOrInterrupt.Interrupt,
         ProgressOrInterrupt.Progress PropertyInfoResult.Success]).progress_bar_sync.progress_overall.length
        = 2)
      ∧ (((Reporter.new 2 0 (some ())).progress_bar_startup
        [ProgressOrInterrupt.Interrupt,
         ProgressOrInterrupt.Progress PropertyInfoResult.Success]).progress_bar_sync.progress_overall.position
        = 3) := by
  refine ⟨?_, ?_, ?_, ?_⟩ <;>
    simp [Reporter.progress_bar_startup, Reporter.new,
      Reporter.progress_bar_sync, ProgressBar.new, ProgressBar.set_position,
      ProgressBar.inc, ProgressBar.finish, Report.default]

/-- C8 amended: once the interrupt event is consumed the flag is set and the
bar is finished; the drain recursion applies at most one queued progress
event, so the position ends at the bar length when nothing followed the
interrupt on the queue, and at the bar length plus one when a progress event
followed it; after the sync call returns with the flag set, the consumption
loop performs no further advances (it is the identity on interrupted
reporters). -/
theorem interrupt_finalizes_bar_single_drain (r : Reporter)
    (rest : List ProgressOrInterrupt)
    (h : r.progress_or_interrupt_rx = some (ProgressOrInterrupt.Interrupt :: rest))
    (hone : ProgressOrInterrupt.Interrupt ∉ rest) :
    r.progress_bar_sync.interrupted = true
      ∧ r.progress_bar_sync.progress_overall.finished = true
      ∧ (rest = [] → r.progress_bar_sync.progress_overall.position
          = r.progress_overall.length)
      ∧ (∀ (res : PropertyInfoResult) (rest2 : List ProgressOrInterrupt),
          rest = ProgressOrInterrupt.Progress res :: rest2 →
          r.progress_bar_sync.progress_overall.position
            = r.progress_overall.length + 1)
      ∧ (∀ r₂ : Reporter, r₂.interrupted = true → r₂.progress_bar_loop = r₂) := by
  rw [Reporter.sync_interrupt r rest h]
  cases rest with
  | nil =>
      rw [Reporter.sync_nil _ rfl]
      refine ⟨rfl, rfl, fun _ => rfl, ?_, ?_⟩
      · intro res rest2 hcon; cases hcon
      · intro r₂ h₂
        rw [Reporter.progress_bar_loop, Reporter.syncLoop_interrupted _ r₂ h₂]
  | cons e rest2 =>
      cases e with
      | Progress res =>
          rw [Reporter.sync_progress _ res rest2 rfl]
          refine ⟨rfl, rfl, ?_, ?_, ?_⟩
          · intro hnil; cases hnil
          · intro res2 rest3 heq; rfl
          · intro r₂ h₂
            rw [Reporter.progress_bar_loop, Reporter.syncLoop_interrupted _ r₂ h₂]
      | Interrupt => exact absurd (List.mem_cons_self _ _) hone

/-- C8 amended witness: the interrupt alone on the queue — the flag is set,
the bar finishes at its length, and the loop stops. -/
theorem interrupt_finalizes_bar_single_drain_witness :
    ((Reporter.new 2 0 (some ())).progress_bar_startup
        [ProgressOrInterrupt.Interrupt]).progress_bar_sync.interrupted = true
      ∧ ((Reporter.new 2 0 (some ())).progress_bar_startup
          [ProgressOrInterrupt.Interrupt]).progress_bar_sync.progress_overall.finished
        = true
      ∧ (([] : List ProgressOrInterrupt) = [] →
          ((Reporter.new 2 0 (some ())).progress_bar_startup
            [ProgressOrInterrupt.Interrupt]).progress_bar_sync.progress_overall.position
          = ((Reporter.new 2 0 (some ())).progress_bar_startup
            [ProgressOrInterrupt.Interrupt]).progress_overall.length)
      ∧ (∀ (res : PropertyInfoResult) (rest2 : List ProgressOrInterrupt),
          ([] : List ProgressOrInterrupt) = ProgressOrInterrupt.Progress res :: rest2 →
          ((Reporter.new 2 0 (some ())).progress_bar_startup
            [ProgressOrInterrupt.Interrupt]).progress_bar_sync.progress_overall.position
          = ((Reporter.new 2 0 (some ())).progress_bar_startup
            [ProgressOrInterrupt.Interrupt]).progress_overall.length + 1)
      ∧ (∀ r₂ : Reporter, r₂.interrupted = true → r₂.progress_bar_loop = r₂) :=
  interrupt_finalizes_bar_single_drain
    ((Reporter.new 2 0 (some ())).progress_bar_startup
      [ProgressOrInterrupt.Interrupt]) [] rfl (by simp)

/-! ## Claim C9 -/

/-- C9: report emission is a pure read of the `Report` state: the emitted text
is a function of the reporter's `report` field alone (two reporter states
agreeing on the `Report` — whatever their bar, flag or channel states — emit
identical text; in particular invoking it twice on the same state yields the
same text both times, and in the embedding `print_report` takes the state by
value and cannot mutate it, as `&self` guarantees in the source). -/
theorem print_report_pure_function_of_report (r₁ r₂ : Reporter)
    (h : r₁.report = r₂.report) :
    r₁.print_report = r₂.print_report := by
  simp only [Reporter.print_report, h]

/-- C9 witness: two reporters differing in every field except the report —
one fresh holding an interrupt channel, one with the merged channel installed
and a different bar state — emit identical text. -/
theorem print_report_pure_function_of_report_witness :
    (Reporter.new 5 2 (some ())).print_report
      = ((Reporter.new 5 2 none).progress_bar_startup
          [ProgressOrInterrupt.Interrupt]).print_report :=
  print_report_pure_function_of_report (Reporter.new 5 2 (some ()))
    ((Reporter.new 5 2 none).progress_bar_startup
      [ProgressOrInterrupt.Interrupt]) rfl

/-! ## Claim C10 -/

/-- C10: before `progress_bar_startup` installs the merged channel, the
`progress_or_interrupt_rx` field is `none` (as `Reporter::new` leaves it), and
in that state `progress_bar_sync` is a total no-op: the reporter — report
fields, interrupted flag and progress position included — is returned
unchanged. -/
theorem sync_noop_without_startup (N S : Nat) (irx : Option Unit) (r : Reporter)
    (h : r.progress_or_interrupt_rx = none) :
    (Reporter.new N S irx).progress_or_interrupt_rx = none
      ∧ r.progress_bar_sync = r := by
  exact ⟨rfl, Reporter.sync_none r h⟩

/-- C10 witness: a fresh reporter has no merged channel, and
`progress_bar_sync` leaves it untouched. -/
theorem sync_noop_without_startup_witness :
    (Reporter.new 1 0 none).progress_or_interrupt_rx = none
      ∧ (Reporter.new 1 0 none).progress_bar_sync = Reporter.new 1 0 none :=
  sync_noop_without_startup 1 0 none (Reporter.new 1 0 none) rfl

end CliAsync
